import Mathlib

/-!
# Verification of the SLIP framing codec and forwarding pumps of slip.c

This file is a shallow embedding of the core of `src/slip.c` (jackqu7/slip-macos):
the SLIP encoder `encode_slip`, the streaming decoder `decode_slip` /
`next_slip_packet`, one loop iteration of the two forwarding pumps `tx_thread`
and `rx_thread`, and the transport (re)connection routine `connect_device`
together with the three device openers it dispatches to.

Modelling conventions:

* Bytes are `Nat` values; theorems about packets carry `b < 256` hypotheses
  where the claim speaks of bytes.
* The transport byte stream read by the decoder is a finite list of read
  events.  Each call to `read(fd, &c, 1)` consumes one event:
  `ReadEv.byte b` models `read` returning 1 having stored `b`,
  `ReadEv.closed` models `read` returning 0 (end of stream), and
  `ReadEv.err` models `read` returning -1 (I/O error) *without touching `c`*.
  An exhausted event list behaves like end of stream.
* `decode_slip` in C leaves its local `unsigned char c` uninitialized until
  the first successful `read`; the parameter `g` below is that indeterminate
  initial value, used only when the very first `read` fails with -1
  (`read` does not write to `c` then).  When the second `read` of an escape
  sequence fails with -1, `c` still holds `ESC` from the first read, which
  the model reproduces exactly.
* `while (1)` loops that consume the stream are written with an explicit
  iteration budget (`fuel`).  Every iteration of the C loop consumes at least
  one read event, so a budget of `stream length + 1` is never exhausted;
  `next_slip_packet_go_fuel_irrel` proves the budget is irrelevant as long as
  it exceeds the stream length.
-/

namespace Slip

/-- MTU from slip.c line 26. -/
def MTU : Nat := 1500

/-- NULL_LOOPBACK_HEADER_SIZE from slip.c line 27. -/
def NULL_LOOPBACK_HEADER_SIZE : Nat := 4

/-- MAX_PACKET_SIZE from slip.c line 28. -/
def MAX_PACKET_SIZE : Nat := MTU + NULL_LOOPBACK_HEADER_SIZE

/-- MAX_PACKET_SIZE_SLIP from slip.c lines 29-30: worst case all escaped plus the end character. -/
def MAX_PACKET_SIZE_SLIP : Nat := MTU * 2 + 1

/-- END from slip.c line 32. -/
def END : Nat := 0xc0

/-- ESC from slip.c line 33. -/
def ESC : Nat := 0xdb

/-- ESC_ESC from slip.c line 34. -/
def ESC_ESC : Nat := 0xdd

/-- ESC_END from slip.c line 35. -/
def ESC_END : Nat := 0xdc

/-- DECODE_END_OF_PACKET from slip.c line 37. -/
def DECODE_END_OF_PACKET : Int := -2

/-- AF_INET, the address-family code written into the loopback header by
rx_thread (slip.c line 380); its value on macOS is 2. -/
def AF_INET : Nat := 2

/-- The loop body of encode_slip (slip.c lines 251-280), processing the input
bytes in order; returns the emitted output bytes together with the value of
the `count` variable.  Per input byte: END is emitted as ESC, ESC_END with
`count` incremented twice; ESC is emitted as ESC, ESC_ESC with `count`
incremented twice; any other byte is emitted verbatim with `count`
incremented once.  After the loop one trailing END is emitted and counted. -/
def encode_slip_go : List Nat → List Nat × Nat
  | [] => ([END], 1)
  | b :: tl =>
    let r := encode_slip_go tl
    if b = END then (ESC :: ESC_END :: r.1, r.2 + 2)
    else if b = ESC then (ESC :: ESC_ESC :: r.1, r.2 + 2)
    else (b :: r.1, r.2 + 1)

/-- The bytes written to `out` by encode_slip (slip.c lines 251-280). -/
def encode_slip (p : List Nat) : List Nat := (encode_slip_go p).1

/-- The `count` value returned by encode_slip (slip.c line 279). -/
def encode_slip_ret (p : List Nat) : Nat := (encode_slip_go p).2

/-- One outcome of a `read(fd, &c, 1)` call on the transport channel. -/
inductive ReadEv where
  | byte (b : Nat)
  | closed
  | err
  deriving DecidableEq

/-- The body of decode_slip after the first read produced the byte value `c`
(slip.c lines 289-307).  If `c` is ESC a second read is performed: returning 0
is the "Read error" branch (-1); a byte equal to ESC_END yields END, a byte
equal to ESC_ESC yields ESC, any other byte is the "Decoding error" branch
(-1); a -1 return from `read` leaves `c` equal to ESC, which is neither
ESC_END nor ESC_ESC, hence also the "Decoding error" branch.  A non-escape
`c` equal to END yields DECODE_END_OF_PACKET, and any other byte is returned
as itself. -/
def decode_slip_first (c : Nat) (rest : List ReadEv) : Int × List ReadEv :=
  if c = ESC then
    match rest with
    | [] => (-1, [])
    | ReadEv.closed :: r2 => (-1, r2)
    | ReadEv.err :: r2 => (-1, r2)
    | ReadEv.byte b :: r2 =>
        if b = ESC_END then ((END : Int), r2)
        else if b = ESC_ESC then ((ESC : Int), r2)
        else (-1, r2)
  else if c = END then (DECODE_END_OF_PACKET, rest)
  else ((c : Int), rest)

/-- decode_slip (slip.c lines 282-308).  The guard `if (!read(fd, &c, 1))` is
true exactly when `read` returns 0: a `ReadEv.closed` event (or an exhausted
stream) takes the "Read error" branch and returns -1, while a `ReadEv.err`
event (`read` returning -1) does *not* take that branch and the function
proceeds with `c` still holding its indeterminate initial value `g`. -/
def decode_slip (g : Nat) : List ReadEv → Int × List ReadEv
  | [] => (-1, [])
  | ReadEv.closed :: rest => (-1, rest)
  | ReadEv.byte b :: rest => decode_slip_first b rest
  | ReadEv.err :: rest => decode_slip_first g rest

/-- The `while (1)` loop of next_slip_packet (slip.c lines 310-324) with an
explicit iteration budget.  `acc` is the prefix `buf[0..i-1]` written so far;
a decode_slip result of -1 returns -1, DECODE_END_OF_PACKET returns the
accumulated packet and its length `i`, and any other (byte) result is stored
at `buf[i]` with `i` incremented. -/
def next_slip_packet_go (g : Nat) : Nat → List Nat → List ReadEv → Int × List Nat × List ReadEv
  | 0, acc, s => (-1, acc, s)
  | fuel + 1, acc, s =>
    let r := decode_slip g s
    if r.1 = -1 then (-1, acc, r.2)
    else if r.1 = DECODE_END_OF_PACKET then ((acc.length : Int), acc, r.2)
    else next_slip_packet_go g fuel (acc ++ [r.1.toNat]) r.2

/-- next_slip_packet (slip.c lines 310-324): run the decode loop on the given
read-event stream.  Since every iteration consumes at least one event, a
budget of one more than the stream length is never exhausted (see
`next_slip_packet_go_fuel_irrel`). -/
def next_slip_packet (g : Nat) (acc : List Nat) (s : List ReadEv) :
    Int × List Nat × List ReadEv :=
  next_slip_packet_go g (s.length + 1) acc s

/-! ### Basic facts about the decoder stream consumption -/

lemma decode_slip_first_rest_le (c : Nat) (rest : List ReadEv) :
    (decode_slip_first c rest).2.length ≤ rest.length := by
  unfold decode_slip_first
  split
  · match rest with
    | [] => simp
    | ReadEv.closed :: r2 => simp
    | ReadEv.err :: r2 => simp
    | ReadEv.byte b :: r2 =>
      dsimp only
      split
      · simp
      · split <;> simp
  · split <;> simp

lemma decode_slip_rest_lt (g : Nat) (e : ReadEv) (tl : List ReadEv) :
    (decode_slip g (e :: tl)).2.length < (e :: tl).length := by
  cases e with
  | closed => simp [decode_slip]
  | byte b =>
    simpa [decode_slip, Nat.lt_succ_iff] using decode_slip_first_rest_le b tl
  | err =>
    simpa [decode_slip, Nat.lt_succ_iff] using decode_slip_first_rest_le g tl

/-- The iteration budget of the decode loop is irrelevant as long as it
exceeds the stream length: every loop iteration consumes at least one read
event. -/
lemma next_slip_packet_go_fuel_irrel (g : Nat) :
    ∀ (f1 : Nat) (f2 : Nat) (acc : List Nat) (s : List ReadEv),
      s.length < f1 → s.length < f2 →
      next_slip_packet_go g f1 acc s = next_slip_packet_go g f2 acc s := by
  intro f1
  induction f1 with
  | zero => intro f2 acc s h1 h2; omega
  | succ f1' ih =>
    intro f2 acc s h1 h2
    cases f2 with
    | zero => omega
    | succ f2' =>
      match s with
      | [] => simp [next_slip_packet_go, decode_slip]
      | e :: tl =>
        simp only [next_slip_packet_go]
        have hlt : (decode_slip g (e :: tl)).2.length < tl.length + 1 := by
          simpa using decode_slip_rest_lt g e tl
        simp only [List.length_cons] at h1 h2
        by_cases hr1 : (decode_slip g (e :: tl)).1 = -1
        · simp [hr1]
        · by_cases hr2 : (decode_slip g (e :: tl)).1 = DECODE_END_OF_PACKET
          · simp [hr1, hr2]
          · simp only [hr1, hr2, if_false]
            exact ih f2' (acc ++ [(decode_slip g (e :: tl)).1.toNat])
              (decode_slip g (e :: tl)).2 (by omega) (by omega)

/-! ### Single-step evaluation lemmas for the decoder -/

lemma decode_slip_end (g : Nat) (tl : List ReadEv) :
    decode_slip g (ReadEv.byte END :: tl) = (DECODE_END_OF_PACKET, tl) := by
  simp [decode_slip, decode_slip_first, END, ESC]

lemma decode_slip_plain (g b : Nat) (h1 : b ≠ ESC) (h2 : b ≠ END) (tl : List ReadEv) :
    decode_slip g (ReadEv.byte b :: tl) = ((b : Int), tl) := by
  simp [decode_slip, decode_slip_first, h1, h2]

lemma decode_slip_escend (g : Nat) (tl : List ReadEv) :
    decode_slip g (ReadEv.byte ESC :: ReadEv.byte ESC_END :: tl) = ((END : Int), tl) := by
  simp [decode_slip, decode_slip_first]

lemma decode_slip_escesc (g : Nat) (tl : List ReadEv) :
    decode_slip g (ReadEv.byte ESC :: ReadEv.byte ESC_ESC :: tl) = ((ESC : Int), tl) := by
  simp [decode_slip, decode_slip_first, ESC_ESC, ESC_END]

lemma next_go_end (g : Nat) (fuel : Nat) (acc : List Nat) (tl : List ReadEv) :
    next_slip_packet_go g (fuel + 1) acc (ReadEv.byte END :: tl)
      = ((acc.length : Int), acc, tl) := by
  simp [next_slip_packet_go, decode_slip_end, DECODE_END_OF_PACKET]

lemma next_go_plain (g b : Nat) (h1 : b ≠ ESC) (h2 : b ≠ END) (fuel : Nat)
    (acc : List Nat) (tl : List ReadEv) :
    next_slip_packet_go g (fuel + 1) acc (ReadEv.byte b :: tl)
      = next_slip_packet_go g fuel (acc ++ [b]) tl := by
  have e1 : ¬((b : Int) = -1) := by omega
  have e2 : ¬((b : Int) = DECODE_END_OF_PACKET) := by
    simp only [DECODE_END_OF_PACKET]; omega
  simp [next_slip_packet_go, decode_slip_plain g b h1 h2, e1, e2]

lemma next_go_escend (g : Nat) (fuel : Nat) (acc : List Nat) (tl : List ReadEv) :
    next_slip_packet_go g (fuel + 1) acc (ReadEv.byte ESC :: ReadEv.byte ESC_END :: tl)
      = next_slip_packet_go g fuel (acc ++ [END]) tl := by
  have e1 : ¬((END : Int) = -1) := by omega
  have e2 : ¬((END : Int) = DECODE_END_OF_PACKET) := by
    simp only [DECODE_END_OF_PACKET]; omega
  simp [next_slip_packet_go, decode_slip_escend, e1, e2]

lemma next_go_escesc (g : Nat) (fuel : Nat) (acc : List Nat) (tl : List ReadEv) :
    next_slip_packet_go g (fuel + 1) acc (ReadEv.byte ESC :: ReadEv.byte ESC_ESC :: tl)
      = next_slip_packet_go g fuel (acc ++ [ESC]) tl := by
  have e1 : ¬((ESC : Int) = -1) := by omega
  have e2 : ¬((ESC : Int) = DECODE_END_OF_PACKET) := by
    simp only [DECODE_END_OF_PACKET]; omega
  simp [next_slip_packet_go, decode_slip_escesc, e1, e2]

/-! ### Shape lemmas for the encoder -/

lemma encode_slip_nil : encode_slip [] = [END] := rfl

lemma encode_slip_cons_end (tl : List Nat) :
    encode_slip (END :: tl) = ESC :: ESC_END :: encode_slip tl := by
  simp [encode_slip, encode_slip_go]

lemma encode_slip_cons_esc (tl : List Nat) :
    encode_slip (ESC :: tl) = ESC :: ESC_ESC :: encode_slip tl := by
  simp [encode_slip, encode_slip_go, ESC, END]

lemma encode_slip_cons_plain (b : Nat) (tl : List Nat) (h1 : b ≠ END) (h2 : b ≠ ESC) :
    encode_slip (b :: tl) = b :: encode_slip tl := by
  simp [encode_slip, encode_slip_go, h1, h2]

lemma encode_slip_ret_eq_length (p : List Nat) :
    encode_slip_ret p = (encode_slip p).length := by
  induction p with
  | nil => rfl
  | cons b tl ih =>
    by_cases h1 : b = END
    · subst h1
      rw [encode_slip_cons_end]
      simp only [encode_slip_ret, encode_slip_go, encode_slip] at ih ⊢
      simp [ih]
    · by_cases h2 : b = ESC
      · subst h2
        rw [encode_slip_cons_esc]
        simp only [encode_slip_ret, encode_slip_go, encode_slip] at ih ⊢
        simp [h1, ih, ESC, END]
      · rw [encode_slip_cons_plain b tl h1 h2]
        simp only [encode_slip_ret, encode_slip_go, encode_slip] at ih ⊢
        simp [h1, h2, ih]

lemma encode_slip_length_bounds (p : List Nat) :
    p.length + 1 ≤ (encode_slip p).length ∧ (encode_slip p).length ≤ 2 * p.length + 1 := by
  induction p with
  | nil => simp [encode_slip_nil]
  | cons b tl ih =>
    by_cases h1 : b = END
    · subst h1; rw [encode_slip_cons_end]; simp only [List.length_cons]; omega
    · by_cases h2 : b = ESC
      · subst h2; rw [encode_slip_cons_esc]; simp only [List.length_cons]; omega
      · rw [encode_slip_cons_plain b tl h1 h2]; simp only [List.length_cons]; omega

lemma encode_slip_replicate_end_length (n : Nat) :
    (encode_slip (List.replicate n END)).length = 2 * n + 1 := by
  induction n with
  | zero => simp [encode_slip_nil]
  | succ k ih =>
    rw [List.replicate_succ, encode_slip_cons_end]
    simp only [List.length_cons, ih]
    omega

/-! ### The decoder inverts the encoder -/

/-- Running the decode loop on the SLIP encoding of a packet `p`, starting
from an already accumulated prefix `acc`, consumes the whole encoding and
returns `acc ++ p` with its length. -/
lemma next_go_on_encoded (g : Nat) (p : List Nat) :
    ∀ (acc : List Nat) (fuel : Nat), (encode_slip p).length < fuel →
      next_slip_packet_go g fuel acc ((encode_slip p).map ReadEv.byte)
        = (((acc ++ p).length : Int), acc ++ p, []) := by
  induction p with
  | nil =>
    intro acc fuel hf
    rw [encode_slip_nil] at hf ⊢
    cases fuel with
    | zero => simp at hf
    | succ f =>
      simp only [List.map_cons, List.map_nil]
      rw [next_go_end]
      simp
  | cons b tl ih =>
    intro acc fuel hf
    by_cases h1 : b = END
    · subst h1
      rw [encode_slip_cons_end] at hf ⊢
      simp only [List.length_cons] at hf
      cases fuel with
      | zero => omega
      | succ f =>
        simp only [List.map_cons]
        rw [next_go_escend, ih (acc ++ [END]) f (by omega)]
        simp
    · by_cases h2 : b = ESC
      · subst h2
        rw [encode_slip_cons_esc] at hf ⊢
        simp only [List.length_cons] at hf
        cases fuel with
        | zero => omega
        | succ f =>
          simp only [List.map_cons]
          rw [next_go_escesc, ih (acc ++ [ESC]) f (by omega)]
          simp
      · rw [encode_slip_cons_plain b tl h1 h2] at hf ⊢
        simp only [List.length_cons] at hf
        cases fuel with
        | zero => omega
        | succ f =>
          simp only [List.map_cons]
          rw [next_go_plain g b h2 h1, ih (acc ++ [b]) f (by omega)]
          simp

/-- next_slip_packet applied to the SLIP encoding of a packet returns exactly
that packet and its length, consuming the whole stream. -/
lemma next_slip_packet_encode (g : Nat) (p : List Nat) :
    next_slip_packet g [] ((encode_slip p).map ReadEv.byte)
      = ((p.length : Int), p, []) := by
  unfold next_slip_packet
  rw [next_go_on_encoded g p [] (((encode_slip p).map ReadEv.byte).length + 1) (by simp)]
  simp

/-! ### One iteration of the inbound pump rx_thread (slip.c lines 371-409) -/

/-- What one iteration of the rx_thread loop does with the decoded result. -/
inductive RxAction where
  | terminate
  | skipFrame
  | forward (frame : List Nat)
  deriving DecidableEq

/-- One iteration of the `while (1)` loop of rx_thread (slip.c lines 383-407):
run next_slip_packet on the transport stream; a negative length returns from
the thread, a length below 1 continues the loop without output, and otherwise
the packet is copied behind the static 4-byte header `0,0,0,AF_INET` and the
resulting link frame of `length + 4` bytes is written to the tunnel. -/
def rx_thread_step (g : Nat) (s : List ReadEv) : RxAction × List ReadEv :=
  let r := next_slip_packet g [] s
  if r.1 < 0 then (RxAction.terminate, r.2.2)
  else if r.1 < 1 then (RxAction.skipFrame, r.2.2)
  else (RxAction.forward ([0, 0, 0, AF_INET] ++ r.2.1), r.2.2)

/-! ### One iteration of the outbound pump tx_thread (slip.c lines 331-369) -/

/-- Outcome of one `write(serialfd, encoded, encoded_length)` call: the
channel accepts `n` bytes, or the call fails. -/
inductive WriteEv where
  | accept (n : Nat)
  | werror
  deriving DecidableEq

/-- Observable effects of one iteration of the tx_thread loop. -/
structure TxStep where
  terminated : Bool
  packetLen : Int
  encoded : List Nat
  bytesWritten : Nat
  restWrites : List WriteEv
  deriving DecidableEq

/-- The single `write` call of the tx_thread loop body (slip.c line 366): its
return value is discarded, so the effect is just how many of the frame's
bytes the channel took on this one call. -/
def tx_write (len : Nat) : List WriteEv → Nat × List WriteEv
  | [] => (0, [])
  | WriteEv.accept n :: rest => (min n len, rest)
  | WriteEv.werror :: rest => (0, rest)

/-- One iteration of the `while (1)` loop of tx_thread (slip.c lines 335-367).
`rd` is the result of `read(utunfd, c, MAX_PACKET_SIZE)`: `none` models a -1
return, which is the only checked error and returns from the thread; `some c`
models a successful read of the bytes `c`.  Then `len -= 4` (with no check
that the read had at least 4 bytes), the bytes after the 4-byte header are
copied out, SLIP-encoded, and written with a single unchecked `write` before
the loop continues. -/
def tx_thread_step (rd : Option (List Nat)) (wr : List WriteEv) : TxStep :=
  match rd with
  | none => ⟨true, 0, [], 0, wr⟩
  | some c =>
    let len : Int := (c.length : Int) - 4
    let packet : List Nat := c.drop 4
    let encoded : List Nat := encode_slip packet
    let w := tx_write encoded.length wr
    ⟨false, len, encoded, w.1, w.2⟩

/-! ### connect_device (slip.c lines 437-465) and the three device openers -/

/-- Result of one call to a device opener, as observed by connect_device: a
file descriptor, a -1 return, or a process exit performed inside the opener. -/
inductive OpenResult where
  | fd (n : Nat)
  | err
  | exited (code : Int)
  deriving DecidableEq

/-- Outcome of connect_device: a connected descriptor or a process exit. -/
inductive ConnectOutcome where
  | connected (n : Nat)
  | procExit (code : Int)
  deriving DecidableEq

/-- Outcome of the system calls made by one open_serial_port attempt
(slip.c lines 41-112): the open may fail, tcgetattr or tcsetattr may fail
(each returns -1 after closing the descriptor), or a descriptor is returned.
No branch of open_serial_port exits the process. -/
inductive SerialEv where
  | ok (n : Nat)
  | openFail
  | getattrFail
  | setattrFail
  deriving DecidableEq

/-- Outcome of the system calls made by one open_unix_domain_socket_as_client
attempt (slip.c lines 114-144): socket() failing calls exit(-1); connect()
failing returns -1 (error_is_fatal only controls whether perror is printed). -/
inductive ClientEv where
  | ok (n : Nat)
  | socketFail
  | connectFail
  deriving DecidableEq

/-- Outcome of the system calls made by one open_unix_domain_socket_as_server
attempt (slip.c lines 146-193): socket(), bind() or listen() failing each
calls exit(-1); accept() failing returns -1. -/
inductive ServerEv where
  | ok (n : Nat)
  | socketFail
  | bindFail
  | listenFail
  | acceptFail
  deriving DecidableEq

/-- open_serial_port (slip.c lines 41-112) abstracted over its syscall
outcomes: every failure path returns -1, success returns the descriptor. -/
def open_serial_port : SerialEv → OpenResult
  | SerialEv.ok n => OpenResult.fd n
  | SerialEv.openFail => OpenResult.err
  | SerialEv.getattrFail => OpenResult.err
  | SerialEv.setattrFail => OpenResult.err

/-- open_unix_domain_socket_as_client (slip.c lines 114-144): socket()
failure exits the process with code -1 regardless of error_is_fatal;
connect() failure closes the descriptor and returns -1. -/
def open_unix_domain_socket_as_client (e : ClientEv) (error_is_fatal : Bool) : OpenResult :=
  match e, error_is_fatal with
  | ClientEv.ok n, _ => OpenResult.fd n
  | ClientEv.socketFail, _ => OpenResult.exited (-1)
  | ClientEv.connectFail, _ => OpenResult.err

/-- open_unix_domain_socket_as_server (slip.c lines 146-193): socket(),
bind() and listen() failures each exit the process with code -1; accept()
failure returns -1. -/
def open_unix_domain_socket_as_server : ServerEv → OpenResult
  | ServerEv.ok n => OpenResult.fd n
  | ServerEv.socketFail => OpenResult.exited (-1)
  | ServerEv.bindFail => OpenResult.exited (-1)
  | ServerEv.listenFail => OpenResult.exited (-1)
  | ServerEv.acceptFail => OpenResult.err

/-- The `while (1)` retry loop of connect_device (slip.c lines 437-465) over
the successive opener results.  An exit performed inside an opener ends the
process; a -1 result with error_is_fatal prints and exits with code 1, and
without error_is_fatal continues to the next attempt; a descriptor is
returned.  `none` means every modelled attempt was consumed while still
retrying (the loop never returns by itself). -/
def connect_device : List OpenResult → Bool → Option ConnectOutcome
  | [], _ => none
  | OpenResult.fd n :: _, _ => some (ConnectOutcome.connected n)
  | OpenResult.exited c :: _, _ => some (ConnectOutcome.procExit c)
  | OpenResult.err :: rest, error_is_fatal =>
    if error_is_fatal then some (ConnectOutcome.procExit 1)
    else connect_device rest error_is_fatal

/-! ### Claim theorems -/

/-- C1: for every Network Packet `p` with `0 <= len(p) <= MTU` whose entries
are bytes, streaming-decoding the byte sequence produced by encode_slip on
`p` yields exactly `p` (with the returned length equal to `len(p)` and the
whole encoded stream consumed). -/
theorem slip_round_trip (g : Nat) (p : List Nat) (hlen : p.length ≤ MTU)
    (hbytes : ∀ b ∈ p, b < 256) :
    next_slip_packet g [] ((encode_slip p).map ReadEv.byte)
      = ((p.length : Int), p, []) :=
  next_slip_packet_encode g p

theorem slip_round_trip_witness :
    (([0x41, 0xc0, 0x42] : List Nat).length ≤ MTU ∧
      ∀ b ∈ ([0x41, 0xc0, 0x42] : List Nat), b < 256) ∧
    next_slip_packet 0 [] ((encode_slip [0x41, 0xc0, 0x42]).map ReadEv.byte)
      = ((3 : Int), [0x41, 0xc0, 0x42], []) :=
  ⟨⟨by decide, by decide⟩, slip_round_trip 0 [0x41, 0xc0, 0x42] (by decide) (by decide)⟩

/-- C2 fails on the code: next_slip_packet has no bound check on the write
index `i`, so the byte stream that SLIP-encodes a packet of MTU + 1 = 1501
plain bytes makes the decoder accumulate 1501 bytes before returning — in C
this writes `buf[i]` for `i` up to 1500 = MTU, one past the end of
`buf[MTU]`, and hands the caller a packet longer than MTU.  This theorem
evaluates the model at that input: the accumulated packet has length
MTU + 1 > MTU. -/
theorem next_slip_packet_overflow :
    next_slip_packet 0 [] ((encode_slip (List.replicate (MTU + 1) 0x41)).map ReadEv.byte)
      = (((MTU + 1 : Nat) : Int), List.replicate (MTU + 1) 0x41, []) ∧
    MTU < (List.replicate (MTU + 1) (0x41 : Nat)).length := by
  constructor
  · simpa using next_slip_packet_encode 0 (List.replicate (MTU + 1) 0x41)
  · simp

/-- C3 fails on the code: decode_slip guards its reads with
`if (!read(fd, &c, 1))`, which is taken only when `read` returns 0
(end of stream), not when `read` returns -1 (I/O error).  On an error
return, `c` is left with its indeterminate prior value (here 0x41) and the
decoder hands that garbage back as a packet byte instead of signalling a
read failure; the inbound pump then forwards a garbage packet instead of
terminating. -/
theorem decode_slip_ignores_read_error :
    decode_slip 0x41 [ReadEv.err] = ((0x41 : Int), []) ∧
    rx_thread_step 0x41 [ReadEv.err, ReadEv.byte END]
      = (RxAction.forward [0, 0, 0, AF_INET, 0x41], []) :=
  ⟨rfl, rfl⟩

/-- C4: whenever the decoder reads an ESC byte followed by a byte that is
neither ESC_END nor ESC_ESC, decode_slip takes the "Decoding error" branch
and returns -1 without emitting any byte, next_slip_packet propagates the -1
at any accumulation state without storing anything, and in particular the
stream [0xDB, 0x01, 0xC0] yields the decode-error return. -/
theorem undefined_escape_decode_error (g b : Nat) (tl : List ReadEv)
    (h1 : b ≠ ESC_END) (h2 : b ≠ ESC_ESC) :
    decode_slip g (ReadEv.byte ESC :: ReadEv.byte b :: tl) = (-1, tl) ∧
    (∀ (acc : List Nat) (fuel : Nat),
        next_slip_packet_go g (fuel + 1) acc (ReadEv.byte ESC :: ReadEv.byte b :: tl)
          = (-1, acc, tl)) ∧
    next_slip_packet g [] [ReadEv.byte 0xdb, ReadEv.byte 0x01, ReadEv.byte 0xc0]
      = (-1, [], [ReadEv.byte 0xc0]) := by
  have hdec : decode_slip g (ReadEv.byte ESC :: ReadEv.byte b :: tl) = (-1, tl) := by
    simp [decode_slip, decode_slip_first, h1, h2]
  refine ⟨hdec, ?_, rfl⟩
  intro acc fuel
  simp [next_slip_packet_go, hdec]

theorem undefined_escape_decode_error_witness :
    ((0x01 : Nat) ≠ ESC_END ∧ (0x01 : Nat) ≠ ESC_ESC) ∧
    decode_slip 0 (ReadEv.byte ESC :: ReadEv.byte 0x01 :: [ReadEv.byte 0xc0])
      = (-1, [ReadEv.byte 0xc0]) :=
  ⟨⟨by decide, by decide⟩,
    (undefined_escape_decode_error 0 0x01 [ReadEv.byte 0xc0] (by decide) (by decide)).1⟩

/-- C5 as stated fails on the code; see `connect_device_server_bind_exits`.
Amended: a transport-open failure that the opener reports by returning -1
(serial open/configure failure, socket-client connect failure, socket-server
accept failure) is fatal with exit code 1 only when error_is_fatal is set
(the very first attempt); with error_is_fatal clear such failures are
retried until an attempt succeeds.  However, socket() failure in either
socket opener and bind()/listen() failure in the server opener call exit(-1)
inside the opener on any attempt, including post-disconnect ones. -/
theorem connect_device_retry_amended :
    (∀ attempts : List OpenResult,
        (∀ c : Int, OpenResult.exited c ∉ attempts) →
        ∀ k : Int, connect_device attempts false ≠ some (ConnectOutcome.procExit k)) ∧
    (∀ (n fd : Nat) (attempts : List OpenResult),
        connect_device (List.replicate n OpenResult.err ++ OpenResult.fd fd :: attempts) false
          = some (ConnectOutcome.connected fd)) ∧
    (∀ attempts : List OpenResult,
        connect_device (OpenResult.err :: attempts) true = some (ConnectOutcome.procExit 1)) ∧
    (∀ (e : SerialEv) (c : Int), open_serial_port e ≠ OpenResult.exited c) ∧
    (∀ (e : ClientEv) (fatal : Bool) (c : Int), e ≠ ClientEv.socketFail →
        open_unix_domain_socket_as_client e fatal ≠ OpenResult.exited c) ∧
    (∀ (e : ServerEv) (c : Int),
        e ≠ ServerEv.socketFail → e ≠ ServerEv.bindFail → e ≠ ServerEv.listenFail →
        open_unix_domain_socket_as_server e ≠ OpenResult.exited c) := by
  refine ⟨?_, ?_, ?_, ?_, ?_, ?_⟩
  · intro attempts
    induction attempts with
    | nil => intro _ k h; simp [connect_device] at h
    | cons a rest ih =>
      intro hmem k h
      cases a with
      | fd n => simp [connect_device] at h
      | err =>
        rw [show connect_device (OpenResult.err :: rest) false = connect_device rest false from
          by simp [connect_device]] at h
        exact ih (fun c hc => hmem c (List.mem_cons_of_mem _ hc)) k h
      | exited c => exact hmem c (List.mem_cons_self _ _)
  · intro n fd attempts
    induction n with
    | zero => simp [connect_device]
    | succ m ih => simpa [connect_device, List.replicate_succ] using ih
  · intro attempts; rfl
  · intro e c; cases e <;> simp [open_serial_port]
  · intro e fatal c he
    cases e with
    | ok n => simp [open_unix_domain_socket_as_client]
    | socketFail => exact absurd rfl he
    | connectFail => simp [open_unix_domain_socket_as_client]
  · intro e c h1 h2 h3
    cases e with
    | ok n => simp [open_unix_domain_socket_as_server]
    | socketFail => exact absurd rfl h1
    | bindFail => exact absurd rfl h2
    | listenFail => exact absurd rfl h3
    | acceptFail => simp [open_unix_domain_socket_as_server]

theorem connect_device_retry_amended_witness :
    (∀ c : Int, OpenResult.exited c ∉ ([OpenResult.err] : List OpenResult)) ∧
    connect_device [OpenResult.err] false ≠ some (ConnectOutcome.procExit 1) :=
  ⟨fun c => by simp, connect_device_retry_amended.1 [OpenResult.err] (fun c => by simp) 1⟩

/-- C5 counterexample: on a subsequent (post-disconnect, error_is_fatal
clear) attempt with the socket-server transport kind, a bind() failure makes
the opener call exit(-1): the process terminates with a nonzero status
instead of retrying indefinitely, refuting the claim that on every
subsequent attempt every transport kind is retried without terminating. -/
theorem connect_device_server_bind_exits :
    connect_device [open_unix_domain_socket_as_server ServerEv.bindFail] false
      = some (ConnectOutcome.procExit (-1)) := rfl

/-- C6: encode_slip is a total function of the packet; its returned count
equals the number of bytes emitted, which lies between `len(p) + 1` and
`2 * len(p) + 1`; and a packet of exactly MTU bytes all equal to 0xC0
encodes to exactly 2 * MTU + 1 bytes and streaming-decodes back to the
original packet. -/
theorem encode_slip_total_bounds (g : Nat) :
    (∀ p : List Nat, p.length ≤ MTU →
        encode_slip_ret p = (encode_slip p).length ∧
        p.length + 1 ≤ (encode_slip p).length ∧
        (encode_slip p).length ≤ 2 * p.length + 1) ∧
    (encode_slip (List.replicate MTU END)).length = 2 * MTU + 1 ∧
    next_slip_packet g [] ((encode_slip (List.replicate MTU END)).map ReadEv.byte)
      = ((MTU : Int), List.replicate MTU END, []) := by
  refine ⟨fun p _ => ⟨encode_slip_ret_eq_length p, (encode_slip_length_bounds p).1,
      (encode_slip_length_bounds p).2⟩, encode_slip_replicate_end_length MTU, ?_⟩
  simpa using next_slip_packet_encode g (List.replicate MTU END)

theorem encode_slip_total_bounds_witness :
    ([0xc0] : List Nat).length ≤ MTU ∧
    (encode_slip_ret [0xc0] = (encode_slip [0xc0]).length ∧
      ([0xc0] : List Nat).length + 1 ≤ (encode_slip [0xc0]).length ∧
      (encode_slip [0xc0]).length ≤ 2 * ([0xc0] : List Nat).length + 1) :=
  ⟨by decide, (encode_slip_total_bounds 0).1 [0xc0] (by decide)⟩

/-- C7: the four concrete encoder examples: a lone END byte, a lone ESC
byte, the empty packet, and a packet with an END byte between two plain
bytes. -/
theorem encode_slip_examples :
    encode_slip [0xc0] = [0xdb, 0xdc, 0xc0] ∧
    encode_slip [0xdb] = [0xdb, 0xdd, 0xc0] ∧
    encode_slip [] = [0xc0] ∧
    encode_slip [0x41, 0xc0, 0x42] = [0x41, 0xdb, 0xdc, 0x42, 0xc0] :=
  ⟨rfl, rfl, rfl, rfl⟩

/-- C8: when the inbound pump's decoder meets a lone END byte with no
preceding data bytes in the current frame, the iteration neither terminates
nor forwards anything to the tunnel: it takes the `length < 1` continue
branch and the loop proceeds with the rest of the stream. -/
theorem empty_frame_suppressed (g : Nat) (rest : List ReadEv) :
    rx_thread_step g (ReadEv.byte END :: rest) = (RxAction.skipFrame, rest) := by
  simp only [rx_thread_step, next_slip_packet, List.length_cons]
  rw [next_go_end]
  simp

/-- C9 as stated fails on the code; see `tx_write_retry_cex`.  Amended: each
encoded Transport Frame is written with exactly one write call whose return
value is ignored — a partial write is not retried (the unwritten remainder
is dropped), a write error likewise drops the frame, and in every case the
pump continues its loop rather than terminating. -/
theorem tx_single_write (c : List Nat) (wr : List WriteEv) :
    (tx_thread_step (some c) wr).terminated = false ∧
    (tx_thread_step (some c) wr).restWrites = wr.tail ∧
    (wr.head? = some WriteEv.werror → (tx_thread_step (some c) wr).bytesWritten = 0) ∧
    (∀ n : Nat, wr.head? = some (WriteEv.accept n) →
        (tx_thread_step (some c) wr).bytesWritten = min n (encode_slip (c.drop 4)).length) := by
  refine ⟨rfl, ?_, ?_, ?_⟩
  · cases wr with
    | nil => rfl
    | cons w rest => cases w <;> rfl
  · intro h
    cases wr with
    | nil => simp at h
    | cons w rest =>
      cases w with
      | accept n => simp at h
      | werror => rfl
  · intro n h
    cases wr with
    | nil => simp at h
    | cons w rest =>
      cases w with
      | accept m =>
        simp only [List.head?_cons, Option.some.injEq, WriteEv.accept.injEq] at h
        subst h
        rfl
      | werror => simp at h

theorem tx_single_write_witness :
    (([WriteEv.werror] : List WriteEv).head? = some WriteEv.werror) ∧
    (tx_thread_step (some [0, 0, 0, 2, 0x41]) [WriteEv.werror]).bytesWritten = 0 :=
  ⟨rfl, (tx_single_write [0, 0, 0, 2, 0x41] [WriteEv.werror]).2.2.1 rfl⟩

/-- C9 counterexample: for the link frame [0,0,0,2,0x41] (encoded frame
[0x41, 0xC0], two bytes) and a channel that accepts one byte on the first
write call and would accept five on a second, the pump writes one byte,
leaves the second write event unconsumed (no retry happened), no write error
occurred, and the loop continues — refuting "retried/looped until the full
frame is written or a write error occurs". -/
theorem tx_write_retry_cex :
    (tx_thread_step (some [0, 0, 0, 2, 0x41]) [WriteEv.accept 1, WriteEv.accept 5]).encoded
      = [0x41, 0xc0] ∧
    (tx_thread_step (some [0, 0, 0, 2, 0x41]) [WriteEv.accept 1, WriteEv.accept 5]).bytesWritten
      = 1 ∧
    (tx_thread_step (some [0, 0, 0, 2, 0x41]) [WriteEv.accept 1, WriteEv.accept 5]).restWrites
      = [WriteEv.accept 5] ∧
    (tx_thread_step (some [0, 0, 0, 2, 0x41]) [WriteEv.accept 1, WriteEv.accept 5]).terminated
      = false :=
  ⟨rfl, rfl, rfl, rfl⟩

/-- C10 as stated fails on the code; see `tx_short_read_negative_len`.
Amended: the outbound pump's error check treats only a read return of -1 as
fatal (terminating the pump); any successful read passes the check, and the
header strip computes `len - 4`, which is the nonnegative packet length
exactly when the read returned at least 4 bytes — the tunnel channel's
frame-oriented read contract, not any check in the pump, is what keeps it
nonnegative. -/
theorem tx_strip_header_len (c : List Nat) (wr : List WriteEv) (h : 4 ≤ c.length) :
    (tx_thread_step (some c) wr).packetLen = (c.length : Int) - 4 ∧
    0 ≤ (tx_thread_step (some c) wr).packetLen ∧
    (∀ wr2 : List WriteEv, (tx_thread_step none wr2).terminated = true) := by
  refine ⟨rfl, ?_, fun wr2 => rfl⟩
  show (0 : Int) ≤ (c.length : Int) - 4
  omega

theorem tx_strip_header_len_witness :
    4 ≤ ([0, 0, 0, 2, 0x41] : List Nat).length ∧
    0 ≤ (tx_thread_step (some [0, 0, 0, 2, 0x41]) []).packetLen :=
  ⟨by decide, (tx_strip_header_len [0, 0, 0, 2, 0x41] [] (by decide)).2.1⟩

/-- C10 counterexample: a tunnel read of two bytes passes the pump's error
check (which only catches a -1 return), is not treated as fatal — the
iteration does not terminate the pump — and the header strip computes the
negative packet length 2 - 4 = -2, refuting the claim that every frame
processed past the error check has length at least 4 and that the strip
never produces a negative-length packet. -/
theorem tx_short_read_negative_len :
    (tx_thread_step (some [0, 0]) [WriteEv.accept 10]).terminated = false ∧
    (tx_thread_step (some [0, 0]) [WriteEv.accept 10]).packetLen = -2 :=
  ⟨rfl, rfl⟩

end Slip
